import Mathlib

/-!
Verification development for the authentication and session-orchestration
subsystem of the Structura template application.

The definitions below are a shallow embedding of the TypeScript sources:

* `src/hooks/useAuth.ts` — the session store (`checkSession`, the
  `onAuthStateChange` subscription mirror, `signIn`, `signInWithProvider`,
  `signUpWithEmail`, `resetPassword`, `updatePassword`, `signOut`,
  `refreshSession`, `clearError`);
* `src/components/auth/AuthForm/index.tsx` — the operation-change effect and
  the submit dispatcher `handleFormSubmit`;
* `src/components/auth/AuthForm/config/authFormDefaults.ts`;
* `src/components/auth/ConfirmEmailView.tsx` — the recovery token-exchange
  effect, together with the React rule that an effect with dependency list
  `[searchParams]` re-runs only when the dependency value changed;
* the email-verification route handler (`GET`).

Asynchronous provider calls are embedded by passing their outcome
(resolved value or thrown error) as an explicit argument; React `useState`
cells become fields of explicit state records, and a sequence of `setX`
calls inside one handler becomes a single functional update.  The helpers
`handleClientError`, `isAppError`, `handleApiError` and the literal values
of `AuthOperationsEnum` live outside the provided sources; they are
modelled from the specification and marked as such in their doc comments.
-/

namespace Structura

/-! ## String utilities -/

/-- Embeds JavaScript `hay.includes(needle)`: substring containment. -/
def containsSubstr (hay needle : String) : Bool :=
  decide (List.IsInfix needle.toList hay.toList)

/-- Embeds JavaScript `s.toLowerCase()` (character-wise lowering). -/
def jsToLowerCase (s : String) : String :=
  String.mk (s.toList.map Char.toLower)

/-- Embeds JavaScript truthiness of a nullable string: `null` and the empty
string are falsy, every other string is truthy. -/
def truthy : Option String → Bool
  | none => false
  | some s => s ≠ ""

/-! ## Error values and classification

`ErrValue` is the runtime shape of error objects flowing through the app:
an `AppError` is an `ErrValue` whose structured fields (`code`, `context`,
`isOperational`) are all present; a plain `Error` carries only `message`. -/

/-- Diagnostic context attached to an `AppError` (`context` field); carries
the flag `shouldSwitchToLogin` used by the registration flow. -/
structure ErrCtx where
  operation : Option String
  shouldSwitchToLogin : Option Bool
deriving DecidableEq, Repr

/-- Runtime error value: the union of raw `Error`s and structured
`AppError`s (`code`, `message`, `context`, `statusCode`, `isOperational`). -/
structure ErrValue where
  code : Option String
  message : String
  context : Option ErrCtx
  isOperational : Option Bool
  statusCode : Option Nat
deriving DecidableEq, Repr

/-- Options record passed to `handleClientError` by its callers
(`operation`, an explicit `code`, and spread context flags). -/
structure ClassifyOptions where
  operation : Option String
  code : Option String
  shouldSwitchToLogin : Option Bool
deriving DecidableEq, Repr

/-- Modelled from the spec: `isAppError` lives in `@/lib/error`, outside the
provided sources.  Per the spec, an input is recognized as an `AppError`
when it carries the structured shape `code`, `context`, `isOperational`. -/
def isAppError (v : ErrValue) : Bool :=
  v.code.isSome && v.context.isSome && v.isOperational.isSome

/-- Modelled from the spec: the message-substring classification of
`@/lib/error`.  Credential failures map to `AUTH/INVALID_CREDENTIALS`,
duplicate-registration phrases to `AUTH/EMAIL_ALREADY_IN_USE`, anything
unmatched to `AUTH/UNKNOWN`. -/
def classifyMessage (m : String) : String :=
  if containsSubstr m "Invalid email" then "AUTH/INVALID_CREDENTIALS"
  else if containsSubstr (jsToLowerCase m) "already registered"
      || containsSubstr (jsToLowerCase m) "already in use" then "AUTH/EMAIL_ALREADY_IN_USE"
  else "AUTH/UNKNOWN"

/-- Modelled from the spec: `handleClientError` of `@/lib/error`, outside
the provided sources.  It builds a structured `AppError` from a raw error
message and caller options: an explicit `code` option wins over message
classification, the original message is preserved, `context` carries the
caller's flags (with `shouldSwitchToLogin` attached for duplicate
registration), and `isOperational` is stamped `true`. -/
def handleClientError (message : String) (opts : ClassifyOptions) : ErrValue :=
  let code := opts.code.getD (classifyMessage message)
  let switchFlag :=
    match opts.shouldSwitchToLogin with
    | some b => some b
    | none => if code = "AUTH/EMAIL_ALREADY_IN_USE" then some true else none
  { code := some code
    message := message
    context := some { operation := opts.operation, shouldSwitchToLogin := switchFlag }
    isOperational := some true
    statusCode := none }

/-- Embeds the check
`appError.context && 'shouldSwitchToLogin' in appError.context && appError.context.shouldSwitchToLogin`
from `AuthForm/index.tsx`. -/
def ctxShouldSwitch (e : ErrValue) : Bool :=
  match e.context with
  | some c => c.shouldSwitchToLogin.getD false
  | none => false

/-! ## Session store (`src/hooks/useAuth.ts`) -/

/-- The authenticated user carried by a session (`AuthUser` of
`@supabase/supabase-js`; only the fields the logic reads are kept). -/
structure AuthUser where
  id : String
  email : Option String
deriving DecidableEq, Repr

/-- A server-issued session.  In the supabase type the `user` field is
non-optional, so `session?.user` is truthy exactly when the session is. -/
structure Session where
  access_token : String
  refresh_token : String
  expires_at : Option Nat
  user : AuthUser
deriving DecidableEq, Repr

/-- A thrown JavaScript value as observed by a `catch` block:
whether it is an `Error` instance, and its message. -/
structure JsError where
  isErrorInstance : Bool
  message : String
deriving DecidableEq, Repr

/-- Outcome of an awaited provider call: resolved value or thrown error. -/
inductive CallOutcome (α : Type) where
  | resolved (a : α)
  | thrown (e : JsError)

/-- The `useAuth` state cells: `session`, `authUser`, `isLoading`, `error`. -/
structure AuthState where
  session : Option Session
  authUser : Option AuthUser
  isLoading : Bool
  error : Option ErrValue
deriving DecidableEq, Repr

/-- The state before the first effect runs (`useState` initial values). -/
def initialAuthState : AuthState :=
  { session := none, authUser := none, isLoading := true, error := none }

/-- Embeds the refresh-token detection of `useAuth.checkSession`:
`error instanceof Error` and the message contains one of the three
refresh-token substrings. -/
def isRefreshTokenError (e : JsError) : Bool :=
  e.isErrorInstance &&
    (containsSubstr e.message "refresh_token"
      || containsSubstr e.message "Refresh Token"
      || containsSubstr e.message "Invalid Refresh Token")

/-- Outcomes of the provider calls awaited inside `checkSession`:
`authService.getSession()` and `authService.getUser()`. -/
structure CheckSessionEnv where
  getSession : Except JsError (Option Session)
  getUser : Except JsError (Option AuthUser)

/-- Embeds the `catch` block of `checkSession`: a refresh-token failure
clears `session`, `authUser` and `error`; any other failure routes the raw
error through the classifier into the `error` cell.  The `finally` clears
`isLoading`. -/
def checkSessionCatch (e : JsError) (st : AuthState) : AuthState :=
  if isRefreshTokenError e then
    { st with session := none, authUser := none, error := none, isLoading := false }
  else
    { st with
        error := some (handleClientError e.message
          { operation := some "checkSession", code := none, shouldSwitchToLogin := none })
        isLoading := false }

/-- Embeds `useAuth.checkSession` for a mounted component: fetch the
session; if it exists but `getUser` resolves null, sign out and clear
state (user-not-found); if a non-null session was fetched, store it and
its user; a null session leaves the state cells untouched; a thrown error
goes to `checkSessionCatch`. -/
def checkSession (env : CheckSessionEnv) (st : AuthState) : AuthState :=
  match env.getSession with
  | .error e => checkSessionCatch e st
  | .ok none =>
      { st with isLoading := false }
  | .ok (some session) =>
      match env.getUser with
      | .error e => checkSessionCatch e st
      | .ok none =>
          { st with session := none, authUser := none, isLoading := false }
      | .ok (some _) =>
          { st with session := some session, authUser := some session.user, isLoading := false }

/-- Embeds the `onAuthStateChange` subscription callback: mirror the pushed
session into the state, deriving `authUser` as `session?.user ?? null`. -/
def onAuthStateChange (s : Option Session) (st : AuthState) : AuthState :=
  { st with session := s, authUser := s.map (·.user), isLoading := false }

/-- Embeds `useAuth.signIn`.  The call clears the previous error, and on a
response error passes a structured `AppError` through unchanged
(`isAppError` branch) or classifies a raw error; the classified error is
returned, and the `finally` clears `isLoading`. -/
def signIn (outcome : CallOutcome (Option ErrValue)) (st : AuthState) :
    AuthState × Option ErrValue :=
  let st' := { st with error := none, isLoading := false }
  match outcome with
  | .resolved (some e) =>
      (st', some (if isAppError e then e
        else handleClientError e.message
          { operation := some "signIn", code := none, shouldSwitchToLogin := none }))
  | .resolved none => (st', none)
  | .thrown e =>
      (st', some (handleClientError e.message
        { operation := some "signIn", code := none, shouldSwitchToLogin := none }))

/-- Embeds `useAuth.signInWithProvider`: clear the previous error, classify
any failure, return it; the `finally` clears `isLoading`. -/
def signInWithProvider (outcome : CallOutcome (Option ErrValue)) (st : AuthState) :
    AuthState × Option ErrValue :=
  let st' := { st with error := none, isLoading := false }
  match outcome with
  | .resolved (some e) =>
      (st', some (handleClientError e.message
        { operation := some "signInWithProvider", code := none, shouldSwitchToLogin := none }))
  | .resolved none => (st', none)
  | .thrown e =>
      (st', some (handleClientError e.message
        { operation := some "signInWithProvider", code := none, shouldSwitchToLogin := none }))

/-- Embeds `useAuth.signUpWithEmail`: same failure shape as
`signInWithProvider` with its own operation tag. -/
def signUpWithEmail (outcome : CallOutcome (Option ErrValue)) (st : AuthState) :
    AuthState × Option ErrValue :=
  let st' := { st with error := none, isLoading := false }
  match outcome with
  | .resolved (some e) =>
      (st', some (handleClientError e.message
        { operation := some "signUpWithEmail", code := none, shouldSwitchToLogin := none }))
  | .resolved none => (st', none)
  | .thrown e =>
      (st', some (handleClientError e.message
        { operation := some "signUpWithEmail", code := none, shouldSwitchToLogin := none }))

/-- Embeds `useAuth.resetPassword`. -/
def resetPassword (outcome : CallOutcome (Option ErrValue)) (st : AuthState) :
    AuthState × Option ErrValue :=
  let st' := { st with error := none, isLoading := false }
  match outcome with
  | .resolved (some e) =>
      (st', some (handleClientError e.message
        { operation := some "resetPassword", code := none, shouldSwitchToLogin := none }))
  | .resolved none => (st', none)
  | .thrown e =>
      (st', some (handleClientError e.message
        { operation := some "resetPassword", code := none, shouldSwitchToLogin := none }))

/-- Embeds `useAuth.updatePassword`. -/
def updatePassword (outcome : CallOutcome (Option ErrValue)) (st : AuthState) :
    AuthState × Option ErrValue :=
  let st' := { st with error := none, isLoading := false }
  match outcome with
  | .resolved (some e) =>
      (st', some (handleClientError e.message
        { operation := some "updatePassword", code := none, shouldSwitchToLogin := none }))
  | .resolved none => (st', none)
  | .thrown e =>
      (st', some (handleClientError e.message
        { operation := some "updatePassword", code := none, shouldSwitchToLogin := none }))

/-- Embeds `useAuth.signOut`. -/
def signOut (outcome : CallOutcome (Option ErrValue)) (st : AuthState) :
    AuthState × Option ErrValue :=
  let st' := { st with error := none, isLoading := false }
  match outcome with
  | .resolved (some e) =>
      (st', some (handleClientError e.message
        { operation := some "signOut", code := none, shouldSwitchToLogin := none }))
  | .resolved none => (st', none)
  | .thrown e =>
      (st', some (handleClientError e.message
        { operation := some "signOut", code := none, shouldSwitchToLogin := none }))

/-- Embeds `useAuth.refreshSession`: on resolution store the fetched
session and its user with the error cleared; on a thrown error keep the
session cells and store the classified error. -/
def refreshSession (outcome : CallOutcome (Option Session)) (st : AuthState) : AuthState :=
  match outcome with
  | .resolved s =>
      { st with error := none, session := s, authUser := s.map (·.user), isLoading := false }
  | .thrown e =>
      { st with
          error := some (handleClientError e.message
            { operation := some "refreshSession", code := none, shouldSwitchToLogin := none })
          isLoading := false }

/-- Embeds `useAuth.clearError`. -/
def clearError (st : AuthState) : AuthState :=
  { st with error := none }

/-- Reachable states of the session store: the initial state, closed under
every state-mutating path of `useAuth` (initial check, subscription
callback, the six auth operations, session refresh, error clearing). -/
inductive Reachable : AuthState → Prop where
  | init : Reachable initialAuthState
  | check (env : CheckSessionEnv) {st} : Reachable st → Reachable (checkSession env st)
  | change (s : Option Session) {st} : Reachable st → Reachable (onAuthStateChange s st)
  | signInStep (o : CallOutcome (Option ErrValue)) {st} :
      Reachable st → Reachable (signIn o st).1
  | providerStep (o : CallOutcome (Option ErrValue)) {st} :
      Reachable st → Reachable (signInWithProvider o st).1
  | signUpStep (o : CallOutcome (Option ErrValue)) {st} :
      Reachable st → Reachable (signUpWithEmail o st).1
  | resetStep (o : CallOutcome (Option ErrValue)) {st} :
      Reachable st → Reachable (resetPassword o st).1
  | updateStep (o : CallOutcome (Option ErrValue)) {st} :
      Reachable st → Reachable (updatePassword o st).1
  | signOutStep (o : CallOutcome (Option ErrValue)) {st} :
      Reachable st → Reachable (signOut o st).1
  | refreshStep (o : CallOutcome (Option Session)) {st} :
      Reachable st → Reachable (refreshSession o st)
  | clearStep {st} : Reachable st → Reachable (clearError st)

/-! ## Auth operations and the adaptive form
(`src/components/auth/AuthForm/index.tsx`,
`src/components/auth/AuthForm/config/authFormDefaults.ts`) -/

/-- The closed enumeration `AuthOperationsEnum`. -/
inductive AuthOperation where
  | LOGIN
  | REGISTER
  | FORGOT_PASSWORD
  | RESET_PASSWORD
  | UPDATE_PASSWORD
deriving DecidableEq, Repr

/-- Modelled from the spec: the literal string values of
`AuthOperationsEnum` (`@/types/enums` is outside the provided sources; the
spec fixes the `op` values, corroborated by `formatOperationForDisplay`
splitting values on a dash). -/
def opValue : AuthOperation → String
  | .LOGIN => "login"
  | .REGISTER => "register"
  | .FORGOT_PASSWORD => "forgot-password"
  | .RESET_PASSWORD => "reset-password"
  | .UPDATE_PASSWORD => "update-password"

/-- Embeds the `switch` of the operation-change effect of
`AuthForm/index.tsx`: the `op` query parameter (lower-cased, `null` when
absent) is matched against the enumeration values, anything else defaulting
to `LOGIN`. -/
def parseOp (raw : Option String) : AuthOperation :=
  match raw with
  | none => .LOGIN
  | some s =>
      let l := jsToLowerCase s
      if l = opValue .LOGIN then .LOGIN
      else if l = opValue .REGISTER then .REGISTER
      else if l = opValue .FORGOT_PASSWORD then .FORGOT_PASSWORD
      else if l = opValue .RESET_PASSWORD then .RESET_PASSWORD
      else if l = opValue .UPDATE_PASSWORD then .UPDATE_PASSWORD
      else .LOGIN

/-- A form field value: string fields or the `acceptTerms` checkbox. -/
inductive FieldVal where
  | str (s : String)
  | bool (b : Bool)
deriving DecidableEq, Repr

/-- Embeds `authFormDefaults`: the default field record of each operation. -/
def authFormDefaults : AuthOperation → List (String × FieldVal)
  | .LOGIN =>
      [("email", .str ""), ("password", .str "")]
  | .REGISTER =>
      [("email", .str ""), ("password", .str ""), ("confirmPassword", .str ""),
        ("name", .str ""), ("acceptTerms", .bool false)]
  | .FORGOT_PASSWORD =>
      [("email", .str "")]
  | .RESET_PASSWORD =>
      [("password", .str ""), ("confirmPassword", .str "")]
  | .UPDATE_PASSWORD =>
      [("currentPassword", .str ""), ("newPassword", .str ""), ("confirmPassword", .str "")]

/-- The `AuthForm` state cells (`operation`, `error`, `isLoading`,
`isRedirecting`, `emailSent`) together with the react-hook-form values. -/
structure AuthFormState where
  operation : AuthOperation
  error : Option ErrValue
  isLoading : Bool
  isRedirecting : Bool
  emailSent : Bool
  form : List (String × FieldVal)
deriving DecidableEq, Repr

/-- Embeds the operation-change effect of `AuthForm/index.tsx`: derive the
new operation from the `op` query parameter; when it differs from the
current one, store it, `reset` the form to that operation's defaults,
clear the displayed error and the email-sent flag. -/
def operationChangeEffect (raw : Option String) (st : AuthFormState) : AuthFormState :=
  let newOperation := parseOp raw
  if newOperation ≠ st.operation then
    { st with
        operation := newOperation
        form := authFormDefaults newOperation
        error := none
        emailSent := false }
  else st

/-- The `error` field of a server-action result: a plain string or a
structured `AppError`. -/
inductive ActionError where
  | str (s : String)
  | app (e : ErrValue)
deriving DecidableEq, Repr

/-- Result of a consumed backend action: `{ success, error? }`. -/
structure ActionResult where
  success : Bool
  error : Option ActionError
deriving DecidableEq, Repr

/-- Embeds the message extraction
`typeof result.error === 'string' ? result.error : result.error?.message || fallback`
(an `AppError` with an empty message, or a missing error, falls back). -/
def extractMessage (err : Option ActionError) (fallback : String) : String :=
  match err with
  | some (.str s) => s
  | some (.app e) => if e.message = "" then fallback else e.message
  | none => fallback

/-- Embeds the duplicate-registration test of the `REGISTER` branch:
the lower-cased message contains `already registered` or `already in use`. -/
def isAlreadyInUse (m : String) : Bool :=
  containsSubstr (jsToLowerCase m) "already registered" || containsSubstr (jsToLowerCase m) "already in use"

/-- Outcomes of the backend calls a submission may await: the four server
actions plus the auth-context `updatePassword` used by `RESET_PASSWORD`. -/
structure SubmitEnv where
  signInWithEmail : ActionResult
  signUpWithEmail : ActionResult
  requestPasswordReset : ActionResult
  updatePasswordCtx : Option ErrValue
  updateUserPassword : ActionResult
deriving DecidableEq, Repr

/-- Navigation outcome of a submission: `router.push`, a rewrite of the
`op` query parameter via `router.replace`, or no navigation. -/
inductive FormAction where
  | pushRoute (path : String)
  | replaceOpParam (op : AuthOperation)
  | stay
deriving DecidableEq, Repr

/-- Embeds `AuthForm.handleFormSubmit`: clear the error and the redirect
flag, dispatch on the active operation, and return the new state with the
navigation performed.  The `finally` clears `isLoading`. -/
def handleFormSubmit (st : AuthFormState) (env : SubmitEnv) : AuthFormState × FormAction :=
  let base := { st with isLoading := false, isRedirecting := false, error := none }
  match st.operation with
  | .LOGIN =>
      let result := env.signInWithEmail
      if result.success then
        ({ base with isRedirecting := true }, .pushRoute "/profile")
      else
        let errorMessage := extractMessage result.error "Login failed"
        let errorCode :=
          if containsSubstr errorMessage "Invalid email" then "AUTH/INVALID_CREDENTIALS"
          else "AUTH/UNKNOWN"
        let appError := handleClientError errorMessage
          { operation := some "login", code := some errorCode, shouldSwitchToLogin := none }
        ({ base with error := some appError }, .stay)
  | .REGISTER =>
      let result := env.signUpWithEmail
      if result.success then
        ({ base with isRedirecting := true }, .pushRoute "/auth/confirm")
      else
        let errorMessage := extractMessage result.error "Registration failed"
        let dup := isAlreadyInUse errorMessage
        let errorCode := if dup then "AUTH/EMAIL_ALREADY_IN_USE" else "AUTH/UNKNOWN"
        let appError := handleClientError errorMessage
          { operation := some "signup", code := some errorCode,
            shouldSwitchToLogin := if dup then some true else none }
        if ctxShouldSwitch appError then
          (base, .replaceOpParam .LOGIN)
        else
          ({ base with error := some appError }, .stay)
  | .FORGOT_PASSWORD =>
      let result := env.requestPasswordReset
      if result.success then
        ({ base with emailSent := true }, .stay)
      else
        let errorMessage := extractMessage result.error "Password reset failed"
        let appError := handleClientError errorMessage
          { operation := some "resetPassword", code := none, shouldSwitchToLogin := none }
        ({ base with error := some appError }, .stay)
  | .RESET_PASSWORD =>
      match env.updatePasswordCtx with
      | some e => ({ base with error := some e }, .stay)
      | none => ({ base with isRedirecting := true }, .pushRoute "/profile")
  | .UPDATE_PASSWORD =>
      let result := env.updateUserPassword
      if result.success then
        ({ base with isRedirecting := true }, .pushRoute "/profile")
      else
        let errorMessage := extractMessage result.error "Password update failed"
        let appError := handleClientError errorMessage
          { operation := some "updatePassword", code := none, shouldSwitchToLogin := none }
        ({ base with error := some appError }, .stay)

/-! ## Recovery token exchange (`src/components/auth/ConfirmEmailView.tsx`)

The verify effect has dependency list `[searchParams]`; React re-runs an
effect only when a dependency value changed since the previous run, so the
embedding threads the previously seen dependency value through the state. -/

/-- The query parameters the recovery view reads. -/
structure SearchParams where
  token_hash : Option String
  otpType : Option String
deriving DecidableEq, Repr

/-- Outcome of `supabase.auth.verifyOtp`: success, a resolved error, or a
thrown exception. -/
inductive OtpOutcome where
  | ok
  | fail (message : String)
  | thrown (message : String)
deriving DecidableEq, Repr

/-- The `ConfirmEmailView` status cell. -/
inductive ConfirmStatus where
  | loading
  | success
  | error
deriving DecidableEq, Repr

/-- The `ConfirmEmailView` state: the `status` and `message` cells, the
dependency value of the previous effect run, and a counter of network
exchanges performed. -/
structure ConfirmState where
  status : ConfirmStatus
  message : String
  prevDeps : Option SearchParams
  verifyCalls : Nat
deriving DecidableEq, Repr

/-- The state at mount. -/
def initialConfirmState : ConfirmState :=
  { status := .loading, message := "", prevDeps := none, verifyCalls := 0 }

/-- Embeds one render's visit of the verify effect: skipped when the
dependency value is unchanged; otherwise the effect runs — it returns
without a network call when `token_hash` or `type` is falsy, and
otherwise performs the exchange and records the outcome. -/
def confirmEffect (sp : SearchParams) (outcome : OtpOutcome) (st : ConfirmState) : ConfirmState :=
  if st.prevDeps = some sp then st
  else
    let st1 := { st with prevDeps := some sp }
    if truthy sp.token_hash && truthy sp.otpType then
      match outcome with
      | .ok =>
          { st1 with
              verifyCalls := st1.verifyCalls + 1
              status := .success
              message := "Email confirmed! You can now log in." }
      | .fail m =>
          { st1 with
              verifyCalls := st1.verifyCalls + 1
              status := .error
              message := if m = "" then "Failed to confirm email." else m }
      | .thrown _ =>
          { st1 with
              verifyCalls := st1.verifyCalls + 1
              status := .error
              message := "Unexpected error during confirmation." }
    else st1

/-- A sequence of renders of one mounted `ConfirmEmailView` instance, each
carrying the `searchParams` value it observed. -/
def runConfirm (renders : List SearchParams) (outcome : OtpOutcome) (st : ConfirmState) :
    ConfirmState :=
  renders.foldl (fun s sp => confirmEffect sp outcome s) st

/-! ## Email-verification route handler (the `GET` of `config/query.ts`) -/

/-- A redirect target: path and query parameters. -/
structure Url where
  path : String
  params : List (String × String)
deriving DecidableEq, Repr

/-- Embeds `searchParams.delete(k)`. -/
def urlDelete (ps : List (String × String)) (k : String) : List (String × String) :=
  ps.filter (fun p => p.1 ≠ k)

/-- Embeds `searchParams.set(k, v)` (parameter order abstracted). -/
def urlSet (ps : List (String × String)) (k v : String) : List (String × String) :=
  ps.filter (fun p => p.1 ≠ k) ++ [(k, v)]

/-- Response of the route handler: a redirect, or the error response
produced by the error-handling wrapper. -/
inductive RouteResponse where
  | redirect (u : Url)
  | errorRedirect (code : String)
deriving DecidableEq, Repr

/-- Modelled from the spec: `handleApiError` (and the `withApiErrorHandler`
wrapper) of `@/lib/error/server` lives outside the provided sources; per
the spec, a verification failure redirects to an error page carrying a
machine-readable code derived from the error. -/
def handleApiError (errMessage : String) : RouteResponse :=
  .errorRedirect errMessage

/-- The request parameters the handler reads: `token_hash`, `type` and
`next` from the request URL, plus the query parameters already embedded in
the `next` target (`new URL(next, origin)` parses them). -/
structure VerifyRequest where
  token_hash : Option String
  otpType : Option String
  next : Option String
  nextParams : List (String × String)
deriving DecidableEq, Repr

/-- Embeds the email-verification `GET` handler: build the redirect target
from `next` (`'' or null` defaulting to `/profile`) with `token_hash` and
`type` stripped; when both parameters are truthy, exchange them — on
success redirect with `verified=true` set, on failure or a thrown error
defer to the error-handling wrapper; otherwise redirect to the error page
with code `invalid_verification_link`. -/
def emailVerificationGET (req : VerifyRequest) (verify : OtpOutcome) : RouteResponse :=
  let nextTarget :=
    match req.next with
    | some s => if s = "" then "/profile" else s
    | none => "/profile"
  let redirectTo : Url :=
    { path := nextTarget, params := urlDelete (urlDelete req.nextParams "token_hash") "type" }
  if truthy req.token_hash && truthy req.otpType then
    match verify with
    | .ok => .redirect { redirectTo with params := urlSet redirectTo.params "verified" "true" }
    | .fail m => handleApiError m
    | .thrown m => handleApiError m
  else
    .redirect { path := "/auth/auth-code-error", params := [("code", "invalid_verification_link")] }

/-- Does the response redirect with `verified=true` among the parameters? -/
def redirectMarksVerified (r : RouteResponse) : Bool :=
  match r with
  | .redirect u => u.params.contains ("verified", "true")
  | .errorRedirect _ => false

/-- Does the response redirect with the sensitive `token_hash` and `type`
parameters absent? -/
def redirectParamsClean (r : RouteResponse) : Bool :=
  match r with
  | .redirect u => u.params.all (fun p => p.1 ≠ "token_hash" && p.1 ≠ "type")
  | .errorRedirect _ => false

/-- The path a redirect response targets. -/
def redirectPath (r : RouteResponse) : Option String :=
  match r with
  | .redirect u => some u.path
  | .errorRedirect _ => none

/-- Does the response carry a machine-readable error code? -/
def carriesErrorCode (r : RouteResponse) : Bool :=
  match r with
  | .redirect _ => false
  | .errorRedirect _ => true

/-- The spec's words for the redirect target: the `next` parameter,
defaulting to `/profile`. -/
def specNextTarget (next : Option String) : String :=
  match next with
  | some s => if s = "" then "/profile" else s
  | none => "/profile"

/-! ## Theorems -/

/-- C1: if the initial session check fails with a refresh-token failure
(detected by message substrings), the session store clears its state and
surfaces no error — the resulting state has `session = null`,
`authUser = null` and `error = null`. -/
theorem C1_refresh_token_silence (env : CheckSessionEnv) (e : JsError) (st : AuthState)
    (hthrow : env.getSession = .error e)
    (href : isRefreshTokenError e = true) :
    (checkSession env st).session = none
      ∧ (checkSession env st).authUser = none
      ∧ (checkSession env st).error = none := by
  simp [checkSession, hthrow, checkSessionCatch, href]

/-- Witness for C1 at a concrete refresh-token failure. -/
theorem C1_refresh_token_silence_witness :
    isRefreshTokenError ⟨true, "Invalid Refresh Token: token expired"⟩ = true
    ∧ ((checkSession ⟨Except.error ⟨true, "Invalid Refresh Token: token expired"⟩, Except.ok none⟩
          initialAuthState).session = none
      ∧ (checkSession ⟨Except.error ⟨true, "Invalid Refresh Token: token expired"⟩, Except.ok none⟩
          initialAuthState).authUser = none
      ∧ (checkSession ⟨Except.error ⟨true, "Invalid Refresh Token: token expired"⟩, Except.ok none⟩
          initialAuthState).error = none) :=
  ⟨by decide, C1_refresh_token_silence _ _ _ rfl (by decide)⟩

/-- C10: when the initial session check resolves with a null session (no
throw), the session store's existing `session` and `authUser` cells are
left unchanged — only a fetched non-null session or the user-not-found
branch writes them on the initialization path. -/
theorem C10_null_session_frame (gu : Except JsError (Option AuthUser)) (st : AuthState) :
    (checkSession ⟨Except.ok none, gu⟩ st).session = st.session
      ∧ (checkSession ⟨Except.ok none, gu⟩ st).authUser = st.authUser := by
  simp [checkSession]

/-- C5: in every reachable state of the session store, `session` is
non-null exactly when `authUser` is non-null — every state-mutating path
sets or clears the two together. -/
theorem C5_session_user_coupling (st : AuthState) (h : Reachable st) :
    st.session.isSome = true ↔ st.authUser.isSome = true := by
  induction h with
  | init => simp [initialAuthState]
  | check env _ ih =>
      rcases hgs : env.getSession with e | sessOpt
      · by_cases href : isRefreshTokenError e = true
        · simp [checkSession, hgs, checkSessionCatch, href]
        · simp only [Bool.not_eq_true] at href
          simpa [checkSession, hgs, checkSessionCatch, href] using ih
      · rcases sessOpt with _ | s
        · simpa [checkSession, hgs] using ih
        · rcases hgu : env.getUser with e' | uOpt
          · by_cases href : isRefreshTokenError e' = true
            · simp [checkSession, hgs, hgu, checkSessionCatch, href]
            · simp only [Bool.not_eq_true] at href
              simpa [checkSession, hgs, hgu, checkSessionCatch, href] using ih
          · rcases uOpt with _ | u
            · simp [checkSession, hgs, hgu]
            · simp [checkSession, hgs, hgu]
  | change s _ _ => cases s <;> simp [onAuthStateChange]
  | signInStep o _ ih =>
      rcases o with a | e
      · rcases a with _ | v <;> simpa [signIn] using ih
      · simpa [signIn] using ih
  | providerStep o _ ih =>
      rcases o with a | e
      · rcases a with _ | v <;> simpa [signInWithProvider] using ih
      · simpa [signInWithProvider] using ih
  | signUpStep o _ ih =>
      rcases o with a | e
      · rcases a with _ | v <;> simpa [signUpWithEmail] using ih
      · simpa [signUpWithEmail] using ih
  | resetStep o _ ih =>
      rcases o with a | e
      · rcases a with _ | v <;> simpa [resetPassword] using ih
      · simpa [resetPassword] using ih
  | updateStep o _ ih =>
      rcases o with a | e
      · rcases a with _ | v <;> simpa [updatePassword] using ih
      · simpa [updatePassword] using ih
  | signOutStep o _ ih =>
      rcases o with a | e
      · rcases a with _ | v <;> simpa [signOut] using ih
      · simpa [signOut] using ih
  | refreshStep o _ ih =>
      rcases o with s | e
      · cases s <;> simp [refreshSession]
      · simpa [refreshSession] using ih
  | clearStep _ ih => simpa [clearError] using ih

/-- Witness for C5 at a concrete reachable state holding a session. -/
theorem C5_session_user_coupling_witness :
    Reachable (onAuthStateChange (some ⟨"at", "rt", none, ⟨"u1", none⟩⟩) initialAuthState)
    ∧ ((onAuthStateChange (some ⟨"at", "rt", none, ⟨"u1", none⟩⟩)
          initialAuthState).session.isSome = true
        ↔ (onAuthStateChange (some ⟨"at", "rt", none, ⟨"u1", none⟩⟩)
          initialAuthState).authUser.isSome = true) :=
  ⟨Reachable.change _ Reachable.init,
    C5_session_user_coupling _ (Reachable.change _ Reachable.init)⟩

/-- C4 counterexample: `signIn` with a failing, non-refresh-token response
returns the classified error but leaves the store's `error` field null —
refuting the claim that every such failure populates the store error. -/
theorem C4_counterexample :
    (signIn (.resolved (some ⟨none, "Database connection failed", none, none, none⟩))
        initialAuthState).2.isSome = true
    ∧ (signIn (.resolved (some ⟨none, "Database connection failed", none, none, none⟩))
        initialAuthState).1.error = none
    ∧ isRefreshTokenError ⟨true, "Database connection failed"⟩ = false := by decide

/-- C4 (amended): every session-store auth operation clears the store's
error at call start and, on any failure (resolved error or thrown
exception), returns `{ error: AppError }` while leaving the store's
`error` field null. -/
theorem C4_failures_returned_not_stored (st : AuthState) (e : ErrValue) (j : JsError) :
    ((signIn (.resolved (some e)) st).2.isSome = true
      ∧ (signIn (.resolved (some e)) st).1.error = none
      ∧ (signIn (.thrown j) st).2.isSome = true
      ∧ (signIn (.thrown j) st).1.error = none)
    ∧ ((signInWithProvider (.resolved (some e)) st).2.isSome = true
      ∧ (signInWithProvider (.resolved (some e)) st).1.error = none
      ∧ (signInWithProvider (.thrown j) st).2.isSome = true
      ∧ (signInWithProvider (.thrown j) st).1.error = none)
    ∧ ((signUpWithEmail (.resolved (some e)) st).2.isSome = true
      ∧ (signUpWithEmail (.resolved (some e)) st).1.error = none
      ∧ (signUpWithEmail (.thrown j) st).2.isSome = true
      ∧ (signUpWithEmail (.thrown j) st).1.error = none)
    ∧ ((resetPassword (.resolved (some e)) st).2.isSome = true
      ∧ (resetPassword (.resolved (some e)) st).1.error = none
      ∧ (resetPassword (.thrown j) st).2.isSome = true
      ∧ (resetPassword (.thrown j) st).1.error = none)
    ∧ ((updatePassword (.resolved (some e)) st).2.isSome = true
      ∧ (updatePassword (.resolved (some e)) st).1.error = none
      ∧ (updatePassword (.thrown j) st).2.isSome = true
      ∧ (updatePassword (.thrown j) st).1.error = none)
    ∧ ((signOut (.resolved (some e)) st).2.isSome = true
      ∧ (signOut (.resolved (some e)) st).1.error = none
      ∧ (signOut (.thrown j) st).2.isSome = true
      ∧ (signOut (.thrown j) st).1.error = none) := by
  simp [signIn, signInWithProvider, signUpWithEmail, resetPassword, updatePassword, signOut]

/-- C6: a transition between two distinct auth operations (driven by the
`op` query parameter) resets the form to the new operation's defaults,
clears the displayed error and clears the email-sent flag, whatever the
previous form contained. -/
theorem C6_operation_reset (A B : AuthOperation) (raw : Option String) (st : AuthFormState)
    (hA : st.operation = A) (hB : parseOp raw = B) (hne : A ≠ B) :
    (operationChangeEffect raw st).operation = B
    ∧ (operationChangeEffect raw st).form = authFormDefaults B
    ∧ (operationChangeEffect raw st).error = none
    ∧ (operationChangeEffect raw st).emailSent = false := by
  have hcond : B ≠ st.operation := by
    rw [hA]; exact Ne.symm hne
  simp [operationChangeEffect, hB, hcond]

/-- Witness for C6: a `LOGIN → REGISTER` transition from a dirty form. -/
theorem C6_operation_reset_witness :
    ({ operation := .LOGIN, error := some ⟨some "AUTH/UNKNOWN", "old failure", none, some true, none⟩,
        isLoading := false, isRedirecting := false, emailSent := true,
        form := [("email", .str "a@b.c"), ("password", .str "hunter2")] } :
          AuthFormState).operation = AuthOperation.LOGIN
    ∧ parseOp (some "register") = AuthOperation.REGISTER
    ∧ AuthOperation.LOGIN ≠ AuthOperation.REGISTER
    ∧ ((operationChangeEffect (some "register")
          { operation := .LOGIN,
            error := some ⟨some "AUTH/UNKNOWN", "old failure", none, some true, none⟩,
            isLoading := false, isRedirecting := false, emailSent := true,
            form := [("email", .str "a@b.c"), ("password", .str "hunter2")] }).operation
            = AuthOperation.REGISTER
      ∧ (operationChangeEffect (some "register")
          { operation := .LOGIN,
            error := some ⟨some "AUTH/UNKNOWN", "old failure", none, some true, none⟩,
            isLoading := false, isRedirecting := false, emailSent := true,
            form := [("email", .str "a@b.c"), ("password", .str "hunter2")] }).form
            = authFormDefaults AuthOperation.REGISTER
      ∧ (operationChangeEffect (some "register")
          { operation := .LOGIN,
            error := some ⟨some "AUTH/UNKNOWN", "old failure", none, some true, none⟩,
            isLoading := false, isRedirecting := false, emailSent := true,
            form := [("email", .str "a@b.c"), ("password", .str "hunter2")] }).error = none
      ∧ (operationChangeEffect (some "register")
          { operation := .LOGIN,
            error := some ⟨some "AUTH/UNKNOWN", "old failure", none, some true, none⟩,
            isLoading := false, isRedirecting := false, emailSent := true,
            form := [("email", .str "a@b.c"), ("password", .str "hunter2")] }).emailSent
            = false) :=
  ⟨rfl, by decide, by decide,
    C6_operation_reset AuthOperation.LOGIN AuthOperation.REGISTER (some "register") _
      rfl (by decide) (by decide)⟩

/-- C7: the classification step of `signIn` is idempotent — a response
error that already carries the structured `AppError` shape is returned as
the very same value, with no double-wrapping. -/
theorem C7_idempotent_classification (st : AuthState) (v : ErrValue)
    (happ : isAppError v = true) :
    (signIn (.resolved (some v)) st).2 = some v := by
  simp [signIn, happ]

/-- Witness for C7 at a concrete structured error. -/
theorem C7_idempotent_classification_witness :
    isAppError ⟨some "AUTH/INVALID_CREDENTIALS", "Invalid login credentials",
        some ⟨some "signIn", none⟩, some true, some 400⟩ = true
    ∧ (signIn (.resolved (some ⟨some "AUTH/INVALID_CREDENTIALS", "Invalid login credentials",
        some ⟨some "signIn", none⟩, some true, some 400⟩)) initialAuthState).2
      = some ⟨some "AUTH/INVALID_CREDENTIALS", "Invalid login credentials",
        some ⟨some "signIn", none⟩, some true, some 400⟩ :=
  ⟨by decide, C7_idempotent_classification _ _ (by decide)⟩

/-- C2: a failed `REGISTER` submission whose message is classified as
already-in-use makes the dispatcher rewrite the `op` query parameter to
`LOGIN` (so the operation-change effect switches the active operation to
`LOGIN`) and display no error panel. -/
theorem C2_duplicate_registration_redirect (st : AuthFormState) (env : SubmitEnv)
    (er : ActionError)
    (hop : st.operation = .REGISTER)
    (hres : env.signUpWithEmail = ⟨false, some er⟩)
    (hdup : isAlreadyInUse (extractMessage (some er) "Registration failed") = true) :
    (handleFormSubmit st env).2 = .replaceOpParam .LOGIN
    ∧ (handleFormSubmit st env).1.error = none
    ∧ (operationChangeEffect (some (opValue .LOGIN)) (handleFormSubmit st env).1).operation
        = AuthOperation.LOGIN := by
  have hmain : handleFormSubmit st env
      = ({ st with isLoading := false, isRedirecting := false, error := none },
          .replaceOpParam .LOGIN) := by
    simp [handleFormSubmit, hop, hres, hdup, handleClientError, ctxShouldSwitch]
  have hparse : parseOp (some (opValue .LOGIN)) = AuthOperation.LOGIN := by decide
  refine ⟨by rw [hmain], by rw [hmain], ?_⟩
  rw [hmain]
  simp [operationChangeEffect, hparse, hop]

/-- Witness for C2 at a concrete "User already registered" failure. -/
theorem C2_duplicate_registration_redirect_witness :
    isAlreadyInUse (extractMessage (some (.str "User already registered"))
        "Registration failed") = true
    ∧ ((handleFormSubmit
          { operation := .REGISTER, error := none, isLoading := false, isRedirecting := false,
            emailSent := false, form := authFormDefaults .REGISTER }
          { signInWithEmail := ⟨true, none⟩
            signUpWithEmail := ⟨false, some (.str "User already registered")⟩
            requestPasswordReset := ⟨true, none⟩
            updatePasswordCtx := none
            updateUserPassword := ⟨true, none⟩ }).2 = .replaceOpParam .LOGIN
      ∧ (handleFormSubmit
          { operation := .REGISTER, error := none, isLoading := false, isRedirecting := false,
            emailSent := false, form := authFormDefaults .REGISTER }
          { signInWithEmail := ⟨true, none⟩
            signUpWithEmail := ⟨false, some (.str "User already registered")⟩
            requestPasswordReset := ⟨true, none⟩
            updatePasswordCtx := none
            updateUserPassword := ⟨true, none⟩ }).1.error = none
      ∧ (operationChangeEffect (some (opValue .LOGIN))
          (handleFormSubmit
            { operation := .REGISTER, error := none, isLoading := false, isRedirecting := false,
              emailSent := false, form := authFormDefaults .REGISTER }
            { signInWithEmail := ⟨true, none⟩
              signUpWithEmail := ⟨false, some (.str "User already registered")⟩
              requestPasswordReset := ⟨true, none⟩
              updatePasswordCtx := none
              updateUserPassword := ⟨true, none⟩ }).1).operation = AuthOperation.LOGIN) :=
  ⟨by decide,
    C2_duplicate_registration_redirect _ _ (.str "User already registered")
      rfl rfl (by decide)⟩

/-- C9: a failed `LOGIN` submission whose message contains
`Invalid email` displays an `AppError` with code
`AUTH/INVALID_CREDENTIALS`; a message without the recognized credential
substring yields `AUTH/UNKNOWN`. -/
theorem C9_login_error_codes (st : AuthFormState) (env : SubmitEnv) (er : ActionError)
    (hop : st.operation = .LOGIN)
    (hres : env.signInWithEmail = ⟨false, some er⟩) :
    (containsSubstr (extractMessage (some er) "Login failed") "Invalid email" = true →
      ((handleFormSubmit st env).1.error.map (·.code))
        = some (some "AUTH/INVALID_CREDENTIALS"))
    ∧ (containsSubstr (extractMessage (some er) "Login failed") "Invalid email" = false →
      ((handleFormSubmit st env).1.error.map (·.code)) = some (some "AUTH/UNKNOWN")) := by
  constructor
  · intro hsub
    simp [handleFormSubmit, hop, hres, hsub, handleClientError]
  · intro hsub
    simp [handleFormSubmit, hop, hres, hsub, handleClientError]

/-- Witness for C9 at a concrete "Invalid email or password" failure. -/
theorem C9_login_error_codes_witness :
    (containsSubstr (extractMessage (some (.str "Invalid email or password")) "Login failed")
        "Invalid email" = true →
      ((handleFormSubmit
          { operation := .LOGIN, error := none, isLoading := false, isRedirecting := false,
            emailSent := false, form := authFormDefaults .LOGIN }
          { signInWithEmail := ⟨false, some (.str "Invalid email or password")⟩
            signUpWithEmail := ⟨true, none⟩
            requestPasswordReset := ⟨true, none⟩
            updatePasswordCtx := none
            updateUserPassword := ⟨true, none⟩ }).1.error.map (·.code))
        = some (some "AUTH/INVALID_CREDENTIALS"))
    ∧ (containsSubstr (extractMessage (some (.str "Invalid email or password")) "Login failed")
        "Invalid email" = false →
      ((handleFormSubmit
          { operation := .LOGIN, error := none, isLoading := false, isRedirecting := false,
            emailSent := false, form := authFormDefaults .LOGIN }
          { signInWithEmail := ⟨false, some (.str "Invalid email or password")⟩
            signUpWithEmail := ⟨true, none⟩
            requestPasswordReset := ⟨true, none⟩
            updatePasswordCtx := none
            updateUserPassword := ⟨true, none⟩ }).1.error.map (·.code))
        = some (some "AUTH/UNKNOWN")) :=
  C9_login_error_codes _ _ (.str "Invalid email or password") rfl rfl

/-- Re-renders with an unchanged dependency value do not re-run the
verify effect. -/
theorem runConfirm_stable (sp : SearchParams) (o : OtpOutcome) :
    ∀ (k : Nat) (st : ConfirmState), st.prevDeps = some sp →
      runConfirm (List.replicate k sp) o st = st := by
  intro k
  induction k with
  | zero => intro st _; simp [runConfirm]
  | succ n ih =>
      intro st h
      have heff : confirmEffect sp o st = st := by
        simp [confirmEffect, h]
      calc runConfirm (List.replicate (n + 1) sp) o st
          = runConfirm (List.replicate n sp) o (confirmEffect sp o st) := by
            simp [runConfirm, List.replicate_succ]
        _ = st := by rw [heff]; exact ih st h

/-- C3: with both `token_hash` and `type` present, the recovery flow
performs the token exchange exactly once across any number of re-renders
of the mounted view with the same search parameters. -/
theorem C3_recovery_exchange_once (sp : SearchParams) (o : OtpOutcome) (k : Nat)
    (htok : truthy sp.token_hash = true) (hty : truthy sp.otpType = true) :
    (runConfirm (List.replicate (k + 1) sp) o initialConfirmState).verifyCalls = 1 := by
  have hfirst : (confirmEffect sp o initialConfirmState).verifyCalls = 1
      ∧ (confirmEffect sp o initialConfirmState).prevDeps = some sp := by
    cases o <;> simp [confirmEffect, initialConfirmState, htok, hty]
  have hstep : runConfirm (List.replicate (k + 1) sp) o initialConfirmState
      = runConfirm (List.replicate k sp) o (confirmEffect sp o initialConfirmState) := by
    simp [runConfirm, List.replicate_succ]
  rw [hstep, runConfirm_stable sp o k _ hfirst.2, hfirst.1]

/-- Witness for C3: three renders with the same token, one exchange. -/
theorem C3_recovery_exchange_once_witness :
    truthy (⟨some "tok", some "email"⟩ : SearchParams).token_hash = true
    ∧ truthy (⟨some "tok", some "email"⟩ : SearchParams).otpType = true
    ∧ (runConfirm (List.replicate (2 + 1) ⟨some "tok", some "email"⟩) .ok
        initialConfirmState).verifyCalls = 1 :=
  ⟨by decide, by decide,
    C3_recovery_exchange_once ⟨some "tok", some "email"⟩ .ok 2 (by decide) (by decide)⟩

/-- Every parameter list produced for the success redirect is free of the
sensitive `token_hash` and `type` keys. -/
theorem urlSet_verified_clean (ps : List (String × String)) :
    ((urlSet (urlDelete (urlDelete ps "token_hash") "type") "verified" "true").all
      (fun p => p.1 ≠ "token_hash" && p.1 ≠ "type")) = true := by
  simp only [urlSet, urlDelete, List.all_append, List.all_eq_true, List.mem_filter,
    Bool.and_eq_true, decide_eq_true_eq]
  constructor
  · intro p hp
    exact ⟨hp.1.1.2, hp.1.2⟩
  · intro p hp
    simp only [List.mem_singleton] at hp
    subst hp
    exact ⟨by decide, by decide⟩

/-- C8: with truthy `token_hash` and `type`, the recovery redirect
endpoint redirects on success to the `next` target (default `/profile`)
with `verified=true` set and the sensitive parameters stripped, and on a
verification failure produces a redirect to an error page carrying a
machine-readable code. -/
theorem C8_recovery_redirect (req : VerifyRequest) (m : String)
    (htok : truthy req.token_hash = true) (hty : truthy req.otpType = true) :
    redirectMarksVerified (emailVerificationGET req .ok) = true
    ∧ redirectParamsClean (emailVerificationGET req .ok) = true
    ∧ redirectPath (emailVerificationGET req .ok) = some (specNextTarget req.next)
    ∧ carriesErrorCode (emailVerificationGET req (.fail m)) = true := by
  refine ⟨?_, ?_, ?_, ?_⟩
  · simp [emailVerificationGET, htok, hty, redirectMarksVerified, urlSet]
  · simpa [emailVerificationGET, htok, hty, redirectParamsClean]
      using urlSet_verified_clean req.nextParams
  · simp [emailVerificationGET, htok, hty, redirectPath, specNextTarget]
  · simp [emailVerificationGET, htok, hty, handleApiError, carriesErrorCode]

/-- Witness for C8 at a concrete verification request. -/
theorem C8_recovery_redirect_witness :
    truthy (⟨some "tok", some "email", none,
        [("token_hash", "tok"), ("type", "email")]⟩ : VerifyRequest).token_hash = true
    ∧ truthy (⟨some "tok", some "email", none,
        [("token_hash", "tok"), ("type", "email")]⟩ : VerifyRequest).otpType = true
    ∧ (redirectMarksVerified (emailVerificationGET
          ⟨some "tok", some "email", none, [("token_hash", "tok"), ("type", "email")]⟩ .ok) = true
      ∧ redirectParamsClean (emailVerificationGET
          ⟨some "tok", some "email", none, [("token_hash", "tok"), ("type", "email")]⟩ .ok) = true
      ∧ redirectPath (emailVerificationGET
          ⟨some "tok", some "email", none, [("token_hash", "tok"), ("type", "email")]⟩ .ok)
          = some (specNextTarget none)
      ∧ carriesErrorCode (emailVerificationGET
          ⟨some "tok", some "email", none, [("token_hash", "tok"), ("type", "email")]⟩
          (.fail "Token has expired")) = true) :=
  ⟨by decide, by decide,
    C8_recovery_redirect _ "Token has expired" (by decide) (by decide)⟩

end Structura
